import Mathlib

/-!
Shallow embedding of `app/src/main/cpp/native-lib.cpp` from ProFieldManager.

The translation unit defines one exported function,
`Java_com_profieldmanager_MainActivity_stringFromJNI`, which builds a
`std::string` from a literal, emits one Android log line through the `LOGI`
macro, and returns `env->NewStringUTF(hello.c_str())`.

Modelling choices:
* A Java string reference (`jstring`) is `Option JavaString`; `none` is the
  NULL reference.
* The JNI environment is abstract: it carries the behaviour of the
  `NewStringUTF` entry of the function table.  A `conforming` environment is
  one where `NewStringUTF` succeeds and yields a Java string whose UTF-8
  contents are the given bytes (the JNI contract under normal operation).
* Ambient mutable program state is `SysState`: the Android log buffer plus a
  store of global variables (the translation unit declares none, so the store
  exists only so that "no global is written" is a real statement).
-/

/-- Android log priorities (`android/log.h`). -/
inductive AndroidLogPriority where
  | verbose
  | debug
  | info
  | warn
  | error
  | fatal
  deriving DecidableEq, Repr

/-- One entry of the Android log buffer: priority, tag and message. -/
structure LogEntry where
  priority : AndroidLogPriority
  tag : String
  message : String
  deriving DecidableEq, Repr

/-- Ambient mutable state visible to the native code: the Android log buffer
and a store of named global variables (this translation unit declares no
globals of its own). -/
structure SysState where
  log : List LogEntry
  globals : List (String × Int)
  deriving DecidableEq, Repr

/-- A Java object reference handed over by the runtime (the `jobject`
parameter).  Only its identity matters to the model. -/
structure jobject where
  ref : Nat
  deriving DecidableEq, Repr

/-- A (non-null) Java string object, identified by its UTF-8 contents. -/
structure JavaString where
  utf8 : String
  deriving DecidableEq, Repr

/-- A Java string reference: `none` models the NULL reference. -/
abbrev jstring := Option JavaString

/-- The JNI environment pointer, abstracted to the behaviour of the
`NewStringUTF` entry of its function table.  On an out-of-memory condition
the real `NewStringUTF` returns NULL, hence the `Option`. -/
structure JNIEnv where
  newStringUTF : String → jstring

/-- A JNI environment behaves according to the JNI contract (normal
operation, allocation succeeds): `NewStringUTF` returns a new Java string
holding exactly the given UTF-8 bytes. -/
def JNIEnv.conforming (env : JNIEnv) : Prop :=
  ∀ s : String, env.newStringUTF s = some ⟨s⟩

/-- The JNI environment of a healthy runtime: `NewStringUTF` always
succeeds. -/
def standardEnv : JNIEnv :=
  ⟨fun s => some ⟨s⟩⟩

/-- `#define LOG_TAG "ProFieldManager"` (native-lib.cpp line 5). -/
def LOG_TAG : String := "ProFieldManager"

/-- `__android_log_print(prio, tag, msg)`: appends one entry to the Android
log buffer. -/
def android_log_print (prio : AndroidLogPriority) (tag : String)
    (msg : String) (s : SysState) : SysState :=
  { s with log := s.log ++ [⟨prio, tag, msg⟩] }

/-- `#define LOGI(...) __android_log_print(ANDROID_LOG_INFO, LOG_TAG, __VA_ARGS__)`
(native-lib.cpp line 6). -/
def LOGI (msg : String) (s : SysState) : SysState :=
  android_log_print AndroidLogPriority.info LOG_TAG msg s

/-- `Java_com_profieldmanager_MainActivity_stringFromJNI` (native-lib.cpp
lines 8-15): build the literal `std::string`, log once via `LOGI`, return
`env->NewStringUTF(hello.c_str())`.  `c_str()` on a `std::string` built from
a NUL-free literal yields the same byte sequence, so the model passes
`hello` itself. -/
def stringFromJNI (env : JNIEnv) (_thisObj : jobject) (s : SysState) :
    SysState × jstring :=
  let hello : String := "Pro Field Manager Native Library - 16KB Page Aligned"
  let s' := LOGI "Native library loaded successfully with 16KB page alignment" s
  (s', env.newStringUTF hello)

/-- The empty initial ambient state. -/
def initState : SysState := ⟨[], []⟩

/-- State and result of the `(n+1)`-th sequential call of `stringFromJNI`,
threading the ambient state through the preceding `n` calls. -/
def callSeq (env : JNIEnv) (obj : jobject) : Nat → SysState → SysState × jstring
  | 0, s => stringFromJNI env obj s
  | n + 1, s => callSeq env obj n (stringFromJNI env obj s).1

/-- The exported symbol name as written in the source (native-lib.cpp
line 9). -/
def exportedSymbol : String := "Java_com_profieldmanager_MainActivity_stringFromJNI"

/-- JNI short-name mangling of one character of a class or method name:
`.` and `/` become `_`; `_`, `;` and `[` take escape sequences; other ASCII
characters stand for themselves. -/
def jniMangleChar (c : Char) : String :=
  if c = '.' ∨ c = '/' then "_"
  else if c = '_' then "_1"
  else if c = ';' then "_2"
  else if c = '[' then "_3"
  else c.toString

/-- The JNI short symbol name for a native method: `Java_`, the mangled
fully qualified class name, `_`, the mangled method name. -/
def jniShortSymbol (cls mth : String) : String :=
  "Java_" ++ String.join (cls.data.map jniMangleChar) ++ "_"
    ++ String.join (mth.data.map jniMangleChar)

/-- Parameter and result kinds of the exported entry point, as far as the
binding convention is concerned. -/
inductive JniValueKind where
  | envHandle
  | instanceHandle
  | textValue
  deriving DecidableEq, Repr

/-- The signature of the exported function as declared in the source
(native-lib.cpp lines 8-11): it takes `JNIEnv*` and `jobject` and returns
`jstring`. -/
def stringFromJNISignature : List JniValueKind × JniValueKind :=
  ([JniValueKind.envHandle, JniValueKind.instanceHandle], JniValueKind.textValue)

/-! ### A fine-grained interleaving semantics for concurrent calls (C9)

Each thread runs one invocation of `stringFromJNI`.  The invocation touches
the shared state exactly once (the `LOGI` append); constructing the local
`std::string` and computing the return value read no shared state.  A thread
is therefore a two-step program: `start` (perform the log append) then
`logged` (compute the result), ending in `finished`. -/

/-- Program counter of one thread running `stringFromJNI`. -/
inductive ThreadPc where
  | start
  | logged
  | finished
  deriving DecidableEq, Repr

/-- One thread: the `jobject` it was handed, its program counter, and its
result once computed (`none` while still running). -/
structure ThreadCtx where
  obj : jobject
  pc : ThreadPc
  result : Option jstring
  deriving DecidableEq, Repr

/-- A fresh thread about to invoke `stringFromJNI` on `obj`. -/
def initThread (obj : jobject) : ThreadCtx := ⟨obj, ThreadPc.start, none⟩

/-- One step of one thread against the shared state, following the body of
`stringFromJNI`: first the `LOGI` append, then the `NewStringUTF` call on
the literal (which reads no shared state). -/
def threadStep (env : JNIEnv) (shared : SysState) (t : ThreadCtx) :
    SysState × ThreadCtx :=
  match t.pc with
  | ThreadPc.start =>
      (LOGI "Native library loaded successfully with 16KB page alignment" shared,
       { t with pc := ThreadPc.logged })
  | ThreadPc.logged =>
      (shared,
       { t with pc := ThreadPc.finished,
                result := some (env.newStringUTF
                  "Pro Field Manager Native Library - 16KB Page Aligned") })
  | ThreadPc.finished => (shared, t)

/-- Let thread `i` of the pool take one step (a no-op index outside the
pool). -/
def schedStep (env : JNIEnv) (st : SysState × List ThreadCtx) (i : Nat) :
    SysState × List ThreadCtx :=
  match st.2[i]? with
  | none => st
  | some t =>
      let p := threadStep env st.1 t
      (p.1, st.2.set i p.2)

/-- Run the thread pool under a schedule: the list names, in order, which
thread steps next.  Any interleaving of the concurrent calls is some
schedule. -/
def runSched (env : JNIEnv) : List Nat → SysState × List ThreadCtx →
    SysState × List ThreadCtx
  | [], st => st
  | i :: rest, st => runSched env rest (schedStep env st i)

/-! ### Helper lemmas -/

/-- The returned reference is whatever `NewStringUTF` gives on the literal,
whatever the ambient state and the receiver object. -/
theorem stringFromJNI_result (env : JNIEnv) (obj : jobject) (s : SysState) :
    (stringFromJNI env obj s).2 =
      env.newStringUTF "Pro Field Manager Native Library - 16KB Page Aligned" :=
  rfl

/-- Closed-form evaluation of one call: the log gains exactly one fixed
entry, globals are untouched, and the result is `NewStringUTF` on the
literal. -/
theorem stringFromJNI_eval (env : JNIEnv) (obj : jobject) (s : SysState) :
    stringFromJNI env obj s =
      ({ log := s.log ++
          [⟨AndroidLogPriority.info, "ProFieldManager",
            "Native library loaded successfully with 16KB page alignment"⟩],
         globals := s.globals },
       env.newStringUTF "Pro Field Manager Native Library - 16KB Page Aligned") :=
  rfl

/-- An element read off a list by index is a member of the list. -/
theorem mem_of_getElem_opt {α : Type} :
    ∀ (l : List α) (i : Nat) (a : α), l[i]? = some a → a ∈ l
  | x :: _, 0, _, h => by
      simp only [List.getElem?_cons_zero, Option.some.injEq] at h
      exact h ▸ List.mem_cons_self _ _
  | _ :: xs, i + 1, a, h => by
      simp only [List.getElem?_cons_succ] at h
      exact List.mem_cons_of_mem _ (mem_of_getElem_opt xs i a h)

/-- Invariant of the thread pool: a finished thread holds the result of
`NewStringUTF` on the literal. -/
def poolInv (env : JNIEnv) (ts : List ThreadCtx) : Prop :=
  ∀ t ∈ ts, t.pc = ThreadPc.finished →
    t.result = some (env.newStringUTF
      "Pro Field Manager Native Library - 16KB Page Aligned")

theorem poolInv_init (env : JNIEnv) (objs : List jobject) :
    poolInv env (objs.map initThread) := by
  intro t ht hpc
  rcases List.mem_map.mp ht with ⟨o, _, rfl⟩
  cases hpc

theorem poolInv_schedStep (env : JNIEnv) (st : SysState × List ThreadCtx)
    (i : Nat) (h : poolInv env st.2) : poolInv env (schedStep env st i).2 := by
  unfold schedStep
  cases hget : st.2[i]? with
  | none => simpa [hget] using h
  | some t =>
      simp only [hget]
      intro u hu hpc
      rcases List.mem_or_eq_of_mem_set hu with hmem | rfl
      · exact h u hmem hpc
      · have htmem : t ∈ st.2 := mem_of_getElem_opt _ _ _ hget
        cases hc : t.pc with
        | start => simp [threadStep, hc] at hpc
        | logged => simp [threadStep, hc]
        | finished =>
            have := h t htmem hc
            simpa [threadStep, hc] using this

theorem poolInv_runSched (env : JNIEnv) (sched : List Nat)
    (st : SysState × List ThreadCtx) (h : poolInv env st.2) :
    poolInv env (runSched env sched st).2 := by
  induction sched generalizing st with
  | nil => exact h
  | cons i rest ih => exact ih _ (poolInv_schedStep env st i h)

/-! ### The claims -/

/-- Claim C1: for every invocation, `stringFromJNI` returns a Java string
whose UTF-8 contents are exactly
"Pro Field Manager Native Library - 16KB Page Aligned" (under the JNI
contract for the environment's `NewStringUTF`). -/
theorem spec_C1 (env : JNIEnv) (obj : jobject) (s : SysState)
    (h : env.conforming) :
    (stringFromJNI env obj s).2 =
      some ⟨"Pro Field Manager Native Library - 16KB Page Aligned"⟩ :=
  h "Pro Field Manager Native Library - 16KB Page Aligned"

theorem spec_C1_witness :
    standardEnv.conforming ∧
      (stringFromJNI standardEnv ⟨0⟩ initState).2 =
        some ⟨"Pro Field Manager Native Library - 16KB Page Aligned"⟩ :=
  ⟨fun _ => rfl, spec_C1 standardEnv ⟨0⟩ initState (fun _ => rfl)⟩

/-- Claim C2: for every invocation, the returned reference is non-null and
the string contents are non-empty (under the JNI contract for the
environment's `NewStringUTF`). -/
theorem spec_C2 (env : JNIEnv) (obj : jobject) (s : SysState)
    (h : env.conforming) :
    ∃ js : JavaString, (stringFromJNI env obj s).2 = some js ∧ js.utf8 ≠ "" :=
  ⟨⟨"Pro Field Manager Native Library - 16KB Page Aligned"⟩,
    h "Pro Field Manager Native Library - 16KB Page Aligned", by decide⟩

theorem spec_C2_witness :
    standardEnv.conforming ∧
      ∃ js : JavaString, (stringFromJNI standardEnv ⟨0⟩ initState).2 = some js ∧
        js.utf8 ≠ "" :=
  ⟨fun _ => rfl, spec_C2 standardEnv ⟨0⟩ initState (fun _ => rfl)⟩

/-- Claim C3: `stringFromJNI` has no failure path of its own: the reference
produced by the string allocation is returned unchanged, with no branch
inspecting it and no error reported or signalled (the function is a total
function into `SysState × jstring`, a type with no error channel). -/
theorem spec_C3 (env : JNIEnv) (obj : jobject) (s : SysState) :
    (stringFromJNI env obj s).2 =
      env.newStringUTF "Pro Field Manager Native Library - 16KB Page Aligned" :=
  stringFromJNI_result env obj s

/-- Claim C4: `stringFromJNI` is deterministic across repetition: the result
of the `(n+1)`-th sequential call equals the result of the first call, for
every `n` — no state accumulates that could change the result. -/
theorem spec_C4 (env : JNIEnv) (obj : jobject) (n : Nat) (s : SysState) :
    (callSeq env obj n s).2 = (callSeq env obj 0 s).2 := by
  induction n generalizing s with
  | zero => rfl
  | succ n ih =>
      calc (callSeq env obj (n + 1) s).2
          = (callSeq env obj n (stringFromJNI env obj s).1).2 := rfl
        _ = (callSeq env obj 0 (stringFromJNI env obj s).1).2 := ih _
        _ = (callSeq env obj 0 s).2 := by
            simp only [callSeq, stringFromJNI_result]

/-- Claim C5: every invocation emits exactly one log entry, with priority
INFO, tag "ProFieldManager" and message
"Native library loaded successfully with 16KB page alignment". -/
theorem spec_C5 (env : JNIEnv) (obj : jobject) (s : SysState) :
    (stringFromJNI env obj s).1.log =
      s.log ++ [⟨AndroidLogPriority.info, "ProFieldManager",
        "Native library loaded successfully with 16KB page alignment"⟩] :=
  rfl

/-- Claim C6: apart from the single log append, an invocation leaves the
ambient state unchanged: the global-variable store is not written, and the
log is only extended by the one entry. -/
theorem spec_C6 (env : JNIEnv) (obj : jobject) (s : SysState) :
    (stringFromJNI env obj s).1.globals = s.globals ∧
      (stringFromJNI env obj s).1.log =
        s.log ++ [⟨AndroidLogPriority.info, "ProFieldManager",
          "Native library loaded successfully with 16KB page alignment"⟩] :=
  ⟨rfl, rfl⟩

/-- Claim C7: the function is one straight-line sequence: for every input it
evaluates, with no case split, to the same closed form — one log append and
the allocation of the literal — and hence terminates on every invocation. -/
theorem spec_C7 (env : JNIEnv) (obj : jobject) (s : SysState) :
    stringFromJNI env obj s =
      ({ log := s.log ++
          [⟨AndroidLogPriority.info, "ProFieldManager",
            "Native library loaded successfully with 16KB page alignment"⟩],
         globals := s.globals },
       env.newStringUTF "Pro Field Manager Native Library - 16KB Page Aligned") :=
  stringFromJNI_eval env obj s

/-- Claim C8: the exported symbol is exactly the JNI short name derived from
the class `com.profieldmanager.MainActivity` and the method `stringFromJNI`,
and the declared signature takes the environment handle and the instance
handle and returns a single text value. -/
theorem spec_C8 :
    exportedSymbol = jniShortSymbol "com.profieldmanager.MainActivity" "stringFromJNI" ∧
      stringFromJNISignature =
        ([JniValueKind.envHandle, JniValueKind.instanceHandle],
          JniValueKind.textValue) :=
  ⟨by decide, rfl⟩

/-- Claim C9: under any interleaving of any number of concurrent calls,
every call that has completed holds exactly the result a lone sequential
call would return — no call's result depends on the shared state. -/
theorem spec_C9 (env : JNIEnv) (sched : List Nat) (objs : List jobject)
    (s0 : SysState) (i : Nat) (t : ThreadCtx)
    (hget : (runSched env sched (s0, objs.map initThread)).2[i]? = some t)
    (hfin : t.pc = ThreadPc.finished) :
    t.result = some (stringFromJNI env t.obj s0).2 := by
  have hinv := poolInv_runSched env sched (s0, objs.map initThread)
    (poolInv_init env objs)
  have hmem : t ∈ (runSched env sched (s0, objs.map initThread)).2 :=
    mem_of_getElem_opt _ _ _ hget
  rw [stringFromJNI_result]
  exact hinv t hmem hfin

theorem spec_C9_witness :
    ((runSched standardEnv [0, 1, 1, 0]
        (initState, [jobject.mk 0, jobject.mk 1].map initThread)).2[0]? =
      some ⟨⟨0⟩, ThreadPc.finished,
        some (some ⟨"Pro Field Manager Native Library - 16KB Page Aligned"⟩)⟩ ∧
      ThreadPc.finished = ThreadPc.finished) ∧
    (ThreadCtx.mk ⟨0⟩ ThreadPc.finished
        (some (some ⟨"Pro Field Manager Native Library - 16KB Page Aligned"⟩))).result =
      some (stringFromJNI standardEnv ⟨0⟩ initState).2 :=
  ⟨⟨rfl, rfl⟩,
    spec_C9 standardEnv [0, 1, 1, 0] [⟨0⟩, ⟨1⟩] initState 0
      ⟨⟨0⟩, ThreadPc.finished,
        some (some ⟨"Pro Field Manager Native Library - 16KB Page Aligned"⟩)⟩
      rfl rfl⟩

/-- Claim C10: the result and the emitted log entry are independent of the
`jobject` argument: two invocations differing only in the object reference
are indistinguishable — the parameter is never read. -/
theorem spec_C10 (env : JNIEnv) (obj obj' : jobject) (s : SysState) :
    stringFromJNI env obj s = stringFromJNI env obj' s :=
  rfl
